import Mathlib

set_option autoImplicit false

/-!
Verification of the depub.space wallet session layer (the `WalletProvider`
hook in `packages/depub.space/src/screens/ChannelScreen.tsx`, second
embedded module, lines 181-608 of the composite file).

The TypeScript source is shallowly embedded below:
* `AsyncStorage` becomes an association list `Store` from keys to
  `StoredVal`; `JSON.stringify`/`JSON.parse` round-trips are modelled by
  storing structured values (`StoredVal.account`) directly, and the
  WalletConnect session blob persisted under the literal key
  `"walletconnect"` is `StoredVal.session`.
* The WalletConnect v1 transport is modelled at its interface boundary:
  the constructor reads the persisted session blob and reports
  `connected`/`peerId` from it (corrupt or missing blob means a fresh,
  disconnected connector), `killSession` clears the blob and marks the
  connector disconnected, `connect()` runs the out-of-band pairing whose
  outcome the environment supplies, and `sendCustomRequest` draws a fresh
  correlation id from a `payloadId` counter.
* React `useState` setters become record updates of `WalletState`;
  thrown/rejected promises become `Except.error`; every externally visible
  side effect is also appended to an event `trace` so that theorems can
  speak about which effects a call performed.
-/

/-- One JSON value, as carried over the WalletConnect JSON-RPC transport. -/
inductive Json where
  | null : Json
  | str : String → Json
  | num : Int → Json
  | bool : Bool → Json
  | arr : List Json → Json
  | obj : List (String × Json) → Json

/-- Property access `j[k]` on a JSON value: `none` models `undefined`
(missing field, or access on a non-object). -/
def jsonGet (j : Json) (k : String) : Option Json :=
  match j with
  | .obj fields => jsonGetFields fields k
  | _ => none
where jsonGetFields : List (String × Json) → String → Option Json
  | [], _ => none
  | (k', v) :: rest, k => if k = k' then some v else jsonGetFields rest k

/-- Extract a JSON string value. -/
def jsonAsStr : Option Json → Option String
  | some (.str s) => some s
  | _ => none

/-- The base64 alphabet used by the protobuf JSON form of byte fields. -/
def b64Chars : List Char :=
  "ABCDEFGHIJKLMNOPQRSTUVWXYZabcdefghijklmnopqrstuvwxyz0123456789+/".data

/-- The base64 digit for a 6-bit value. -/
def b64Char (n : Nat) : Char := b64Chars.getD n 'A'

/-- The 6-bit value of a base64 digit (padding and junk map to 0). -/
def b64Val (c : Char) : Nat := ((b64Chars.findIdx? (· = c)).getD 0)

/-- Base64-encode a byte sequence (bytes are naturals below 256). -/
def base64Encode : List Nat → String
  | [] => ""
  | [a] =>
    ⟨[b64Char (a / 4), b64Char (a % 4 * 16), '=', '=']⟩
  | [a, b] =>
    ⟨[b64Char (a / 4), b64Char (a % 4 * 16 + b / 16), b64Char (b % 16 * 4), '=']⟩
  | a :: b :: c :: rest =>
    (⟨[b64Char (a / 4), b64Char (a % 4 * 16 + b / 16),
       b64Char (b % 16 * 4 + c / 64), b64Char (c % 64)]⟩ : String)
      ++ base64Encode rest

/-- Base64-decode a character stream back to bytes. -/
def base64DecodeChars : List Char → List Nat
  | a :: b :: c :: d :: rest =>
    let x := b64Val a * 262144 + b64Val b * 4096 + b64Val c * 64 + b64Val d
    if c = '=' then [x / 65536]
    else if d = '=' then [x / 65536, x / 256 % 256]
    else [x / 65536, x / 256 % 256, x % 256] ++ base64DecodeChars rest
  | _ => []

/-- Base64-decode a string to bytes. -/
def base64Decode (s : String) : List Nat := base64DecodeChars s.data

/-- `SignDoc` from `cosmjs-types/cosmos/tx/v1beta1/tx`: the canonical
chain-defined document handed to `signDirect`. -/
structure SignDoc where
  bodyBytes : List Nat
  authInfoBytes : List Nat
  chainId : String
  accountNumber : Nat

/-- `SignDoc.toJSON`: the canonical JSON transport form of a sign document
(byte fields as base64, the account number as a decimal string). -/
def signDocToJSON (d : SignDoc) : Json :=
  .obj [("bodyBytes", .str (base64Encode d.bodyBytes)),
        ("authInfoBytes", .str (base64Encode d.authInfoBytes)),
        ("chainId", .str d.chainId),
        ("accountNumber", .str (toString d.accountNumber))]

/-- `SignDoc.fromJSON`: deserialize the transport form back into a sign
document, defaulting absent or ill-typed fields as the generated protobuf
JSON decoder does. -/
def signDocFromJSON (j : Json) : SignDoc :=
  { bodyBytes :=
      match jsonAsStr (jsonGet j "bodyBytes") with
      | some s => base64Decode s
      | none => []
    authInfoBytes :=
      match jsonAsStr (jsonGet j "authInfoBytes") with
      | some s => base64Decode s
      | none => []
    chainId := (jsonAsStr (jsonGet j "chainId")).getD ""
    accountNumber :=
      match jsonAsStr (jsonGet j "accountNumber") with
      | some s => s.toNat?.getD 0
      | none => 0 }

/-- One JSON-RPC request sent through `connector.sendCustomRequest`. -/
structure WCRequest where
  id : Nat
  jsonrpc : String
  method : String
  params : List Json

/-- The value a relayed `signDirect` call resolves with. -/
structure SignDirectResult where
  signed : SignDoc
  signature : Option Json

/-- The `signDirect` member of the offline signer built in
`initWalletConnect` (source lines 479-492): serialize the sign document
with `SignDoc.toJSON`, send a `cosmos_signDirect` request carrying a fresh
`payloadId` correlation id, and resolve with the deserialized signed
document and the signature from the matching response.  `respond` is the
transport: it maps the issued request to the correlated response.  The
`payloadId` generator is modelled as a counter threaded in and out. -/
def wcSignDirect (respond : WCRequest → Json) (nextId : Nat)
    (signerAddress : String) (signDoc : SignDoc) :
    WCRequest × SignDirectResult × Nat :=
  let req : WCRequest :=
    { id := nextId
      jsonrpc := "2.0"
      method := "cosmos_signDirect"
      params := [Json.str signerAddress, signDocToJSON signDoc] }
  let res := respond req
  (req,
   { signed := signDocFromJSON ((jsonGet res "signed").getD Json.null)
     signature := jsonGet res "signature" },
   nextId + 1)

/-- The account tuple returned by the wallet over `cosmos_getAccounts`
and cached under the peer-id key.  Each field is `none` when the response
lacks it (the relay protocol types present fields as strings). -/
structure WCAccount where
  bech32Address : Option String
  algo : Option String
  pubKey : Option String
  deriving DecidableEq, Repr

/-- The WalletConnect session record the transport persists: whether the
session is established, and the peer identifier. -/
structure WCSession where
  connected : Bool
  peerId : String
  deriving DecidableEq, Repr

/-- One value persisted in `AsyncStorage`.  Plain strings are stored as
`str`; `account` is the `JSON.stringify` image of a wallet account object
(`none` models a JSON `null`); `session` is the opaque WalletConnect
session blob the transport keeps under the literal key `"walletconnect"`;
`undef` is the artifact of stringifying `undefined`. -/
inductive StoredVal where
  | str : String → StoredVal
  | account : Option WCAccount → StoredVal
  | session : WCSession → StoredVal
  | undef : StoredVal
  deriving DecidableEq, Repr

/-- The persisted session store: `AsyncStorage`, an association of string
keys to stored values (first binding wins on lookup). -/
def Store : Type := List (String × StoredVal)

/-- `AsyncStorage.getItem`: `none` models a JS `null` result. -/
def slookup (k : String) : Store → Option StoredVal
  | [] => none
  | (k', v) :: rest => if k = k' then some v else slookup k rest

/-- `AsyncStorage.removeItem`: drop every binding of the key. -/
def sremove (k : String) : Store → Store
  | [] => []
  | (k', v) :: rest => if k = k' then sremove k rest else (k', v) :: sremove k rest

/-- `AsyncStorage.setItem`: whole-record replace of the key's binding. -/
def sset (k : String) (v : StoredVal) (s : Store) : Store :=
  (k, v) :: sremove k s

/-- Remove a list of keys in order. -/
def sremoveAll : List String → Store → Store
  | [], s => s
  | k :: ks, s => sremoveAll ks (sremove k s)

/-- Literal prefix test (`new RegExp(`^PREFIX`).test(key)`; the prefix
contains no regex metacharacters, so the regex test is a starts-with). -/
def listIsPref : List Char → List Char → Bool
  | [], _ => true
  | _ :: _, [] => false
  | a :: as, b :: bs => a = b && listIsPref as bs

/-- `KEY_WALLET_CONNECT_ACCOUNT_PREFIX` from the source: the leading part
of every cached-account key. -/
def KEY_WC_ACCOUNT : String := "KEY_WALLET_CONNECT_ACCOUNT_PREFIX"

/-- `KEY_WALLET_CONNECT` from the source: the key of the opaque
WalletConnect relay-session blob (the literal key the transport itself
persists under). -/
def KEY_WALLET_CONNECT : String := "walletconnect"

/-- `KEY_CONNECTED_WALLET_TYPE` from the source: records which backend
(`"keplr"` or `"likerland_app"`) was connected. -/
def KEY_CONNECTED_WALLET_TYPE : String := "KEY_CONNECTED_WALLET_TYPE"

/-- The storage key caching the account tuple of a peer:
`` `${KEY_WALLET_CONNECT_ACCOUNT_PREFIX}_${peerId}` ``. -/
def accountKey (peerId : String) : String := KEY_WC_ACCOUNT ++ "_" ++ peerId

/-- Does a key carry the cached-account key shape? -/
def keyHasAccountPref (k : String) : Bool := listIsPref KEY_WC_ACCOUNT.data k.data

/-- An externally visible effect performed by an operation; appended to
the state's trace as operations run. -/
inductive Event where
  | sGetAllKeys : Event
  | sGet : String → Event
  | sSet : String → Event
  | sRemove : String → Event
  | newConnector : Event
  | killSession : String → Event
  | pairingRequest : Event
  | wcRequest : String → Nat → Event
  | keplrEnable : Event
  | keplrGetAccounts : Event
  | keplrSuggest : Event
  deriving DecidableEq, Repr

/-- A WalletConnect connector object, at its interface boundary: whether
it currently reports an established session, and for which peer. -/
structure Connector where
  connected : Bool
  peerId : String
  deriving DecidableEq, Repr

/-- The offline signer held in React state: either the injected Keplr
signer (opaque here) or the relayed signer built over the connector. -/
inductive Signer where
  | keplr : Signer
  | walletConnect : String → WCAccount → Signer
  deriving DecidableEq, Repr

/-- The `WalletProvider` component state: the `useState` cells, the
persisted store, the `payloadId` counter and the trace of performed
effects. -/
structure WalletState where
  walletAddress : Option String
  offlineSigner : Option Signer
  connector : Option Connector
  isLoading : Bool
  error : Option String
  storage : Store
  nextId : Nat
  trace : List Event

/-- Append one effect to the trace. -/
def WalletState.emit (st : WalletState) (e : Event) : WalletState :=
  { st with trace := st.trace ++ [e] }

/-- Traced `AsyncStorage.setItem`. -/
def WalletState.setI (st : WalletState) (k : String) (v : StoredVal) : WalletState :=
  { st with storage := sset k v st.storage, trace := st.trace ++ [Event.sSet k] }

/-- Traced `AsyncStorage.removeItem`. -/
def WalletState.removeI (st : WalletState) (k : String) : WalletState :=
  { st with storage := sremove k st.storage, trace := st.trace ++ [Event.sRemove k] }

/-- The per-call environment: availability of `window.keplr` and the
outcomes of every external asynchronous interaction an operation may
perform.  `Except.error m` models a rejected promise with message `m`. -/
structure Env where
  keplrAvailable : Bool
  enable : Except String Unit
  suggest : Except String Unit
  accounts : Except String (List String)
  pairing : Except String String
  accountsResp : Except String (List (Option WCAccount))

/-- JS truthiness of an optional string (`undefined` and `""` are falsy). -/
def truthyS : Option String → Bool
  | none => false
  | some s => s != ""

/-- JS truthiness of an `AsyncStorage.getItem` result (`null` and `""`
are falsy; every other stored value is a non-empty string). -/
def truthyVal : Option StoredVal → Bool
  | none => false
  | some (.str s) => s != ""
  | some _ => true

/-- `JSON.stringify` of the destructured first element of the
`cosmos_getAccounts` response (`undefined`, `null`, or the account). -/
def storedOfAccount : Option (Option WCAccount) → StoredVal
  | none => .undef
  | some a => .account a

/-- A handshake account response the source's validation rejects:
`undefined`, `null`, or an object one of whose `bech32Address`/`algo`/
`pubKey` fields is missing or empty. -/
def malformedAcct : Option (Option WCAccount) → Bool
  | none => true
  | some none => true
  | some (some a) => !(truthyS a.bech32Address && truthyS a.algo && truthyS a.pubKey)

/-- The storage effects the tail of `initWalletConnect` performs: the
wallet-type write happens exactly when the account validates. -/
def wcFinishTrace : Option (Option WCAccount) → List Event
  | some (some a) =>
    if truthyS a.bech32Address && truthyS a.algo && truthyS a.pubKey then
      [Event.sSet KEY_CONNECTED_WALLET_TYPE]
    else []
  | _ => []

/-- `new WalletConnect({ bridge, qrcodeModal, ... })`: the constructor
restores the persisted session from the `"walletconnect"` blob; with no
(or an unreadable) blob the connector starts disconnected with an empty
peer id. -/
def mkConnector (st : WalletState) : Connector × WalletState :=
  let st := (st.emit (Event.sGet KEY_WALLET_CONNECT)).emit Event.newConnector
  (match slookup KEY_WALLET_CONNECT st.storage with
   | some (.session s) => { connected := s.connected, peerId := s.peerId }
   | _ => { connected := false, peerId := "" },
   st)

/-- `connector.killSession()`: tear down the transport session — the
persisted blob is removed and the connector reports disconnected. -/
def killConnector (c : Connector) (st : WalletState) : Connector × WalletState :=
  ({ c with connected := false },
   (st.removeI KEY_WALLET_CONNECT).emit (Event.killSession c.peerId))

/-- The tail of `initWalletConnect` after `account` is determined (source
lines 469-500): bail out falsily when the account is `undefined`/`null`,
destructure `{bech32Address, algo, pubKey}`, bail out falsily when any is
falsy, otherwise install the address and the relayed offline signer in
React state and record `"likerland_app"` as the connected wallet type.
-/
def wcFinish (c : Connector) (account : Option (Option WCAccount))
    (st : WalletState) : Except String Bool × WalletState :=
  match account with
  | none => (.ok false, st)
  | some none => (.ok false, st)
  | some (some a) =>
    if truthyS a.bech32Address && truthyS a.algo && truthyS a.pubKey then
      let st := { st with walletAddress := some (a.bech32Address.getD "")
                          offlineSigner := some (Signer.walletConnect c.peerId a) }
      let st := st.setI KEY_CONNECTED_WALLET_TYPE (.str "likerland_app")
      (.ok true, st)
    else (.ok false, st)

/-- The fresh-pairing branch of `initWalletConnect` (source lines
435-452): `connector.connect()` runs the out-of-band pairing (emitting a
pairing request; the environment decides its outcome), on approval the
transport persists its session blob and the client issues a
`cosmos_getAccounts` request with a fresh `payloadId`, destructures the
first element of the response, and caches its `JSON.stringify` image
under the peer-id key before any validation. -/
def wcFresh (stored : Bool) (env : Env) (st : WalletState) :
    Except String Bool × WalletState :=
  match env.pairing with
  | .error e => (.error e, st.emit Event.pairingRequest)
  | .ok pid =>
    let c : Connector := { connected := true, peerId := pid }
    let st := (st.emit Event.pairingRequest).setI KEY_WALLET_CONNECT
      (.session { connected := true, peerId := pid })
    let st := if stored then { st with connector := some c } else st
    let rid := st.nextId
    let st := { st.emit (Event.wcRequest "cosmos_getAccounts" rid) with nextId := rid + 1 }
    match env.accountsResp with
    | .error e => (.error e, st)
    | .ok accs =>
      let account := accs.head?
      let st := st.setI (accountKey pid) (storedOfAccount account)
      wcFinish c account st

/-- The restore branch of `initWalletConnect` (source lines 453-467),
taken when the connector reports an established session: load the cached
account for its peer id (`JSON.parse` of a non-account value throws);
when no cached account exists but a relay-session blob does, the blob is
removed as an orphan. -/
def wcRestore (c : Connector) (st : WalletState) :
    Except String Bool × WalletState :=
  let st := st.emit (Event.sGet (accountKey c.peerId))
  let sa := slookup (accountKey c.peerId) st.storage
  let st := st.emit (Event.sGet KEY_WALLET_CONNECT)
  let blob := slookup KEY_WALLET_CONNECT st.storage
  if truthyVal sa then
    match sa with
    | some (.account a) => wcFinish c (some a) st
    | _ => (.error "SyntaxError: JSON.parse", st)
  else if truthyVal blob then
    wcFinish c none (st.removeI KEY_WALLET_CONNECT)
  else
    wcFinish c none st

/-- The branch dispatch of `initWalletConnect` on
`newConnector.connected` (source line 435). -/
def wcGo (stored : Bool) (c : Connector) (env : Env) (st : WalletState) :
    Except String Bool × WalletState :=
  if c.connected then wcRestore c st else wcFresh stored env st

/-- `initWalletConnect` (source lines 403-501): construct a connector
(restoring any persisted transport session), publish it with
`setConnector`, and — if it reports an established session — kill that
session and construct a second, fresh connector before proceeding.  The
second connector is never published to React state (the source reassigns
the local `newConnector` after `setConnector` already ran). -/
def initWalletConnect (env : Env) (st : WalletState) :
    Except String Bool × WalletState :=
  let p := mkConnector st
  let c1 := p.1
  let st := { p.2 with connector := some c1 }
  if c1.connected then
    let q := killConnector c1 st
    let st := { q.2 with connector := some q.1 }
    let r := mkConnector st
    wcGo false r.1 env r.2
  else
    wcGo true c1 env st

/-- `initKepr` (source lines 382-401): enable the injected provider for
the chain, fetch accounts from its offline signer, destructure the first
one (an empty account list makes the destructuring throw), bail out
falsily on an empty address, otherwise install address and signer and
record `"keplr"` as the connected wallet type. -/
def initKepr (env : Env) (st : WalletState) : Except String Bool × WalletState :=
  match env.enable with
  | .error e => (.error e, st.emit Event.keplrEnable)
  | .ok _ =>
    let st := st.emit Event.keplrEnable
    match env.accounts with
    | .error e => (.error e, st.emit Event.keplrGetAccounts)
    | .ok addrs =>
      let st := st.emit Event.keplrGetAccounts
      match addrs with
      | [] => (.error "TypeError: cannot destructure", st)
      | address :: _ =>
        if address == "" then (.ok false, st)
        else
          let st := { st with walletAddress := some address
                              offlineSigner := some Signer.keplr }
          let st := st.setI KEY_CONNECTED_WALLET_TYPE (.str "keplr")
          (.ok true, st)

/-- `suggestChain` (source lines 339-353): no-op without the injected
provider; otherwise suggest the chain config, recording a thrown error in
the `error` state (the try/catch is internal — it never throws). -/
def suggestChain (env : Env) (st : WalletState) : WalletState :=
  if env.keplrAvailable then
    let st := { st with isLoading := true }
    let st := st.emit Event.keplrSuggest
    let st := match env.suggest with
      | .error e => { st with error := some e }
      | .ok _ => st
    { st with isLoading := false }
  else st

/-- `disconnect` (source lines 355-380): list all storage keys, remove
every cached-account key (the ones matching the account prefix), remove
the connected-wallet-type record and the relay-session blob, kill the
transport session when the connector in React state reports one, and
clear address, signer, loading flag and error. -/
def disconnect (st : WalletState) : WalletState :=
  let accountKeys := (st.storage.map Prod.fst).filter keyHasAccountPref
  let st := st.emit Event.sGetAllKeys
  let st := { st with storage := sremoveAll accountKeys st.storage
                      trace := st.trace ++ accountKeys.map Event.sRemove }
  let st := st.removeI KEY_CONNECTED_WALLET_TYPE
  let st := st.removeI KEY_WALLET_CONNECT
  let st := match st.connector with
    | some c =>
      if c.connected then
        let q := killConnector c st
        { q.2 with connector := none }
      else st
    | none => st
  { st with walletAddress := none, offlineSigner := none,
            isLoading := false, error := none }

/-- The try-block of `setupAccount` (source lines 510-523): read the
recorded wallet type and dispatch to the matching restoration path. -/
def setupAccountTry (env : Env) (st : WalletState) : Except String Bool × WalletState :=
  let st := st.emit (Event.sGet KEY_CONNECTED_WALLET_TYPE)
  let wt := slookup KEY_CONNECTED_WALLET_TYPE st.storage
  let st := { st with isLoading := true }
  if wt = some (.str "likerland_app") then initWalletConnect env st
  else if wt = some (.str "keplr") then initKepr env st
  else (.ok false, st)

/-- `setupAccount` (source lines 503-533): startup restoration.  Returns
immediately when `window.keplr` is undefined; otherwise dispatches on the
recorded wallet type, catches any thrown error into the `error` state,
and clears the loading flag. -/
def setupAccount (env : Env) (st : WalletState) : WalletState :=
  if env.keplrAvailable then
    let p := setupAccountTry env st
    let st := match p.1 with
      | .error e => { p.2 with error := some e }
      | .ok _ => p.2
    { st with isLoading := false }
  else st

/-- `connectWalletConnect` (source lines 535-547): set loading, run
`initWalletConnect` ignoring its boolean result, catch any thrown error
into the `error` state, clear loading. -/
def connectWalletConnect (env : Env) (st : WalletState) : WalletState :=
  let st := { st with isLoading := true }
  let p := initWalletConnect env st
  let st := match p.1 with
    | .error e => { p.2 with error := some e }
    | .ok _ => p.2
  { st with isLoading := false }

/-- `connectKeplr` (source lines 549-570): fail immediately with the
"Keplr is not available" error when the injected provider is absent;
otherwise set loading, suggest the chain, run `initKepr` ignoring its
boolean result, catch any thrown error, clear loading. -/
def connectKeplr (env : Env) (st : WalletState) : WalletState :=
  if env.keplrAvailable then
    let st := { st with isLoading := true }
    let st := suggestChain env st
    let p := initKepr env st
    let st := match p.1 with
      | .error e => { p.2 with error := some e }
      | .ok _ => p.2
    { st with isLoading := false }
  else { st with error := some "Keplr is not available" }

/-- One public operation of the wallet session manager, together with the
environment its external interactions see. -/
inductive Op where
  | connectInjected : Env → Op
  | connectRelayed : Env → Op
  | disconnectOp : Op
  | startupRestore : Env → Op

/-- Interpret one operation. -/
def applyOp : Op → WalletState → WalletState
  | .connectInjected env, st => connectKeplr env st
  | .connectRelayed env, st => connectWalletConnect env st
  | .disconnectOp, st => disconnect st
  | .startupRestore env, st => setupAccount env st

/-- Run a sequence of operations. -/
def run : List Op → WalletState → WalletState
  | [], st => st
  | op :: ops, st => run ops (applyOp op st)

/-- The provider's initial React state over an arbitrary persisted
store: no address, no signer, no connector, not loading, no error. -/
def initialState (storage : Store) : WalletState :=
  { walletAddress := none, offlineSigner := none, connector := none,
    isLoading := false, error := none, storage := storage,
    nextId := 0, trace := [] }

/-- The session invariant: the wallet address and the offline signer are
present together (at most one session is active — the single signer cell
holds the one backend's signer), and an active session's address is a
non-empty string. -/
def SessionInv (st : WalletState) : Prop :=
  (st.walletAddress.isSome ↔ st.offlineSigner.isSome) ∧
  (∀ a, st.walletAddress = some a → a ≠ "")

theorem slookup_sremove (k k' : String) (s : Store) :
    slookup k (sremove k' s) = if k = k' then none else slookup k s := by
  induction s with
  | nil => simp [sremove, slookup]
  | cons p rest ih =>
    obtain ⟨a, v⟩ := p
    by_cases h1 : k' = a
    · subst h1
      by_cases h2 : k = k'
      · subst h2; simp [sremove, slookup, ih]
      · simp [sremove, slookup, h2, ih]
    · by_cases h2 : k = a
      · subst h2
        have h3 : ¬ k = k' := fun h => h1 h.symm
        have h4 : ¬ k' = k := h1
        simp [sremove, slookup, h3, h4]
      · simp [sremove, slookup, h1, h2, ih, fun h => h1 (Eq.symm h)]

theorem slookup_sremoveAll (k : String) (ks : List String) (s : Store) :
    slookup k (sremoveAll ks s) = if k ∈ ks then none else slookup k s := by
  induction ks generalizing s with
  | nil => simp [sremoveAll]
  | cons k0 ks ih =>
    simp only [sremoveAll]
    rw [ih, slookup_sremove]
    by_cases h1 : k = k0
    · simp [h1]
    · by_cases h2 : k ∈ ks <;> simp [h1, h2]

theorem slookup_mem_keys (k : String) (v : StoredVal) (s : Store)
    (h : slookup k s = some v) : k ∈ s.map Prod.fst := by
  induction s with
  | nil => simp [slookup] at h
  | cons p rest ih =>
    obtain ⟨a, w⟩ := p
    by_cases h1 : k = a
    · simp [h1]
    · simp only [slookup, if_neg h1] at h
      simp [ih h]

theorem listIsPref_self_append (p r : List Char) : listIsPref p (p ++ r) = true := by
  induction p with
  | nil => rfl
  | cons c cs ih => simp [listIsPref, ih]

theorem keyHasAccountPref_accountKey (p : String) :
    keyHasAccountPref (accountKey p) = true := by
  show listIsPref KEY_WC_ACCOUNT.data ((KEY_WC_ACCOUNT ++ "_" ++ p).data) = true
  rw [String.data_append, String.data_append, List.append_assoc]
  exact listIsPref_self_append _ _

theorem slookup_none_sremove (k k' : String) (s : Store) (h : slookup k s = none) :
    slookup k (sremove k' s) = none := by
  rw [slookup_sremove]
  by_cases h1 : k = k' <;> simp [h1, h]

theorem disconnect_lookup_none (st : WalletState) (k : String)
    (h : k = KEY_CONNECTED_WALLET_TYPE ∨ k = KEY_WALLET_CONNECT ∨
      keyHasAccountPref k = true) :
    slookup k (disconnect st).storage = none := by
  have key3 : slookup k (sremove KEY_WALLET_CONNECT (sremove KEY_CONNECTED_WALLET_TYPE
      (sremoveAll ((st.storage.map Prod.fst).filter keyHasAccountPref) st.storage))) = none := by
    rw [slookup_sremove, slookup_sremove, slookup_sremoveAll]
    by_cases h1 : k = KEY_WALLET_CONNECT
    · simp [h1]
    · by_cases h2 : k = KEY_CONNECTED_WALLET_TYPE
      · simp [h1, h2]
      · by_cases hm : k ∈ (st.storage.map Prod.fst).filter keyHasAccountPref
        · simp [h1, h2, hm]
        · have hpre : keyHasAccountPref k = true := by
            rcases h with h | h | h
            · exact absurd h h2
            · exact absurd h h1
            · exact h
          have hnone : slookup k st.storage = none := by
            cases hv : slookup k st.storage with
            | none => rfl
            | some v =>
              exact absurd (List.mem_filter.mpr ⟨slookup_mem_keys k v _ hv, hpre⟩) hm
          simp [h1, h2, hm, hnone]
  simp only [disconnect, WalletState.emit, WalletState.removeI, killConnector]
  cases hc : st.connector with
  | none => simpa using key3
  | some c =>
    by_cases hcc : c.connected
    · simpa [hcc] using slookup_none_sremove k KEY_WALLET_CONNECT _ key3
    · simpa [hcc] using key3

/-- C1: after `disconnect()` completes, the wallet address and the offline
signer are absent, and the persisted session store holds no
connected-wallet-type entry, no relay-session-blob (`"walletconnect"`)
entry, and no cached-account entry for any peer id. -/
theorem C1_disconnect_clears_state (st : WalletState) :
    (disconnect st).walletAddress = none ∧
    (disconnect st).offlineSigner = none ∧
    slookup KEY_CONNECTED_WALLET_TYPE (disconnect st).storage = none ∧
    slookup KEY_WALLET_CONNECT (disconnect st).storage = none ∧
    ∀ p, slookup (accountKey p) (disconnect st).storage = none := by
  refine ⟨rfl, rfl, ?_, ?_, ?_⟩
  · exact disconnect_lookup_none st _ (Or.inl rfl)
  · exact disconnect_lookup_none st _ (Or.inr (Or.inl rfl))
  · intro p
    exact disconnect_lookup_none st _ (Or.inr (Or.inr (keyHasAccountPref_accountKey p)))

theorem truthyS_getD (o : Option String) (h : truthyS o = true) : o.getD "" ≠ "" := by
  cases o with
  | none => simp [truthyS] at h
  | some s =>
    simp only [truthyS, bne_iff_ne, ne_eq] at h
    simpa using h

theorem sessionInv_fields (st st' : WalletState)
    (ha : st'.walletAddress = st.walletAddress)
    (hs : st'.offlineSigner = st.offlineSigner)
    (h : SessionInv st) : SessionInv st' := by
  unfold SessionInv at *
  rw [ha, hs]
  exact h

theorem inv_wcFinish (c : Connector) (acct : Option (Option WCAccount)) (st : WalletState)
    (h : SessionInv st) : SessionInv (wcFinish c acct st).2 := by
  match acct with
  | none => exact h
  | some none => exact h
  | some (some a) =>
    simp only [wcFinish]
    by_cases hv : (truthyS a.bech32Address && truthyS a.algo && truthyS a.pubKey) = true
    · simp only [if_pos hv]
      constructor
      · simp [WalletState.setI]
      · intro x hx
        simp only [WalletState.setI] at hx
        have hx' : a.bech32Address.getD "" = x := by
          simpa using hx
        rw [Bool.and_eq_true, Bool.and_eq_true] at hv
        exact hx' ▸ truthyS_getD a.bech32Address hv.1.1
    · simp only [if_neg hv]
      exact h

theorem inv_wcFresh (stored : Bool) (env : Env) (st : WalletState)
    (h : SessionInv st) : SessionInv (wcFresh stored env st).2 := by
  unfold wcFresh
  cases env.pairing with
  | error e => exact h
  | ok pid =>
    cases stored with
    | false =>
      cases env.accountsResp with
      | error e => exact h
      | ok accs => exact inv_wcFinish _ _ _ h
    | true =>
      cases env.accountsResp with
      | error e => exact h
      | ok accs => exact inv_wcFinish _ _ _ h

theorem inv_wcRestore (c : Connector) (st : WalletState)
    (h : SessionInv st) : SessionInv (wcRestore c st).2 := by
  unfold wcRestore
  by_cases h1 : truthyVal (slookup (accountKey c.peerId)
      ((st.emit (Event.sGet (accountKey c.peerId))).storage)) = true
  · simp only [if_pos h1]
    cases hv : slookup (accountKey c.peerId)
        ((st.emit (Event.sGet (accountKey c.peerId))).storage) with
    | none => exact h
    | some v =>
      cases v with
      | str s => exact h
      | account a => exact inv_wcFinish _ _ _ h
      | session s => exact h
      | undef => exact h
  · simp only [if_neg h1]
    by_cases h2 : truthyVal (slookup KEY_WALLET_CONNECT
        (((st.emit (Event.sGet (accountKey c.peerId))).emit
          (Event.sGet KEY_WALLET_CONNECT)).storage)) = true
    · simp only [if_pos h2]
      exact inv_wcFinish _ _ _ h
    · simp only [if_neg h2]
      exact inv_wcFinish _ _ _ h

theorem inv_wcGo (stored : Bool) (c : Connector) (env : Env) (st : WalletState)
    (h : SessionInv st) : SessionInv (wcGo stored c env st).2 := by
  unfold wcGo
  by_cases hc : c.connected = true
  · simp only [if_pos hc]
    exact inv_wcRestore _ _ h
  · simp only [if_neg hc]
    exact inv_wcFresh _ _ _ h

theorem inv_initWalletConnect (env : Env) (st : WalletState)
    (h : SessionInv st) : SessionInv (initWalletConnect env st).2 := by
  unfold initWalletConnect
  by_cases hc : (mkConnector st).1.connected = true
  · simp only [if_pos hc]
    exact inv_wcGo _ _ _ _ (sessionInv_fields _ st rfl rfl h)
  · simp only [if_neg hc]
    exact inv_wcGo _ _ _ _ (sessionInv_fields _ st rfl rfl h)

theorem inv_initKepr (env : Env) (st : WalletState)
    (h : SessionInv st) : SessionInv (initKepr env st).2 := by
  unfold initKepr
  cases env.enable with
  | error e => exact h
  | ok u =>
    cases env.accounts with
    | error e => exact h
    | ok addrs =>
      cases addrs with
      | nil => exact h
      | cons address rest =>
        by_cases ha : (address == "") = true
        · simp only [if_pos ha]
          exact h
        · simp only [if_neg ha]
          constructor
          · simp [WalletState.setI]
          · intro x hx
            simp only [WalletState.setI] at hx
            have hx' : address = x := by simpa using hx
            subst hx'
            simpa using ha

theorem inv_suggestChain (env : Env) (st : WalletState)
    (h : SessionInv st) : SessionInv (suggestChain env st) := by
  unfold suggestChain
  by_cases hk : env.keplrAvailable = true
  · simp only [if_pos hk]
    cases env.suggest with
    | error e => exact h
    | ok u => exact h
  · simp only [if_neg hk]
    exact h

theorem inv_catch (res : Except String Bool) (st : WalletState)
    (h : SessionInv st) :
    SessionInv (match res with
      | .error e => { st with error := some e }
      | .ok _ => st) := by
  cases res with
  | error e => exact sessionInv_fields _ st rfl rfl h
  | ok b => exact h

theorem inv_connectKeplr (env : Env) (st : WalletState)
    (h : SessionInv st) : SessionInv (connectKeplr env st) := by
  unfold connectKeplr
  by_cases hk : env.keplrAvailable = true
  · simp only [if_pos hk]
    have h1 : SessionInv (suggestChain env { st with isLoading := true }) :=
      inv_suggestChain env _ (sessionInv_fields _ st rfl rfl h)
    have h2 := inv_initKepr env _ h1
    have h3 := inv_catch (initKepr env (suggestChain env { st with isLoading := true })).1 _ h2
    exact sessionInv_fields _ _ rfl rfl h3
  · simp only [if_neg hk]
    exact sessionInv_fields _ st rfl rfl h

theorem inv_connectWalletConnect (env : Env) (st : WalletState)
    (h : SessionInv st) : SessionInv (connectWalletConnect env st) := by
  unfold connectWalletConnect
  have h1 := inv_initWalletConnect env { st with isLoading := true }
    (sessionInv_fields _ st rfl rfl h)
  have h2 := inv_catch (initWalletConnect env { st with isLoading := true }).1 _ h1
  exact sessionInv_fields _ _ rfl rfl h2

theorem inv_disconnect (st : WalletState) : SessionInv (disconnect st) := by
  constructor
  · constructor
    · intro hx
      simp [disconnect] at hx
    · intro hx
      simp [disconnect] at hx
  · intro a ha
    simp [disconnect] at ha

theorem inv_setupAccountTry (env : Env) (st : WalletState)
    (h : SessionInv st) : SessionInv (setupAccountTry env st).2 := by
  unfold setupAccountTry
  by_cases h1 : slookup KEY_CONNECTED_WALLET_TYPE
      ((st.emit (Event.sGet KEY_CONNECTED_WALLET_TYPE)).storage) =
      some (StoredVal.str "likerland_app")
  · simp only [if_pos h1]
    exact inv_initWalletConnect env _ (sessionInv_fields _ st rfl rfl h)
  · simp only [if_neg h1]
    by_cases h2 : slookup KEY_CONNECTED_WALLET_TYPE
        ((st.emit (Event.sGet KEY_CONNECTED_WALLET_TYPE)).storage) =
        some (StoredVal.str "keplr")
    · simp only [if_pos h2]
      exact inv_initKepr env _ (sessionInv_fields _ st rfl rfl h)
    · simp only [if_neg h2]
      exact sessionInv_fields _ st rfl rfl h

theorem inv_setupAccount (env : Env) (st : WalletState)
    (h : SessionInv st) : SessionInv (setupAccount env st) := by
  unfold setupAccount
  by_cases hk : env.keplrAvailable = true
  · simp only [if_pos hk]
    have h1 := inv_setupAccountTry env st h
    have h2 := inv_catch (setupAccountTry env st).1 _ h1
    exact sessionInv_fields _ _ rfl rfl h2
  · simp only [if_neg hk]
    exact h

theorem inv_applyOp (op : Op) (st : WalletState)
    (h : SessionInv st) : SessionInv (applyOp op st) := by
  cases op with
  | connectInjected env => exact inv_connectKeplr env st h
  | connectRelayed env => exact inv_connectWalletConnect env st h
  | disconnectOp => exact inv_disconnect st
  | startupRestore env => exact inv_setupAccount env st h

theorem inv_run (ops : List Op) (st : WalletState)
    (h : SessionInv st) : SessionInv (run ops st) := by
  induction ops generalizing st with
  | nil => exact h
  | cons op ops ih => exact ih _ (inv_applyOp op st h)

/-- C2: in every state reachable from the provider's initial state (over
an arbitrary persisted store) by any sequence of
connect-injected/connect-relayed/disconnect/startup-restoration
operations, the wallet address is present exactly when the offline signer
is present, and an active session's address is a non-empty string.  At
most one session is active at a time: the single `offlineSigner` cell
holds the one active backend's signer (`Signer.keplr` or
`Signer.walletConnect`), so two sessions can never be active at once. -/
theorem C2_session_invariant (storage : Store) (ops : List Op) :
    SessionInv (run ops (initialState storage)) := by
  apply inv_run
  constructor
  · simp [initialState]
  · intro a ha
    simp [initialState] at ha

/-- Witness for C2 at a concrete operation sequence. -/
theorem C2_session_invariant_witness :
    SessionInv (run [Op.disconnectOp] (initialState [])) :=
  C2_session_invariant [] [Op.disconnectOp]

/-- C4: a relayed `signDirect(signerAddress, signDoc)` call sends a
request with method `cosmos_signDirect`, params
`[signerAddress, SignDoc.toJSON signDoc]` and the freshly generated
correlation id (the current `payloadId` counter value, which the call
bumps so no later request reuses it), and resolves with
`signed = SignDoc.fromJSON response.signed` and
`signature = response.signature` from the correlated response.  The
relayed signer only exists while the provider is connected (C2). -/
theorem C4_signDirect_request_response (respond : WCRequest → Json) (nextId : Nat)
    (signerAddress : String) (signDoc : SignDoc) :
    (wcSignDirect respond nextId signerAddress signDoc).1.method = "cosmos_signDirect" ∧
    (wcSignDirect respond nextId signerAddress signDoc).1.jsonrpc = "2.0" ∧
    (wcSignDirect respond nextId signerAddress signDoc).1.params =
      [Json.str signerAddress, signDocToJSON signDoc] ∧
    (wcSignDirect respond nextId signerAddress signDoc).1.id = nextId ∧
    (wcSignDirect respond nextId signerAddress signDoc).2.2 = nextId + 1 ∧
    (wcSignDirect respond nextId signerAddress signDoc).2.1.signed =
      signDocFromJSON ((jsonGet (respond
        (wcSignDirect respond nextId signerAddress signDoc).1) "signed").getD Json.null) ∧
    (wcSignDirect respond nextId signerAddress signDoc).2.1.signature =
      jsonGet (respond (wcSignDirect respond nextId signerAddress signDoc).1) "signature" :=
  ⟨rfl, rfl, rfl, rfl, rfl, rfl, rfl⟩

/-- C9: when the injected provider is unavailable, `connectKeplr` fails
immediately — the only change to the whole provider state is the error
message; in particular the signer, the session fields, the persisted
store, and the effect trace (no `enable` call, no account fetch, no
storage access) are untouched. -/
theorem C9_provider_unavailable (e1 : Except String Unit) (e2 : Except String Unit)
    (e3 : Except String (List String)) (e4 : Except String String)
    (e5 : Except String (List (Option WCAccount))) (st : WalletState) :
    connectKeplr ⟨false, e1, e2, e3, e4, e5⟩ st =
      { st with error := some "Keplr is not available" } :=
  rfl

/-- Witness for C9 at a concrete state. -/
theorem C9_provider_unavailable_witness :
    connectKeplr ⟨false, .ok (), .ok (), .ok [], .ok "", .ok []⟩ (initialState []) =
      { initialState [] with error := some "Keplr is not available" } :=
  C9_provider_unavailable (.ok ()) (.ok ()) (.ok []) (.ok "") (.ok []) (initialState [])

/-- C10: when `window.keplr` is undefined, `setupAccount` returns before
doing anything at all: the resulting state — including the persisted
store and the effect trace (so in particular no read of the recorded
wallet type and no restoration attempt of either backend) — is exactly
the input state.  A persisted relayed session is therefore not restored
unless the unrelated injected provider happens to be present. -/
theorem C10_setup_requires_keplr (e1 : Except String Unit) (e2 : Except String Unit)
    (e3 : Except String (List String)) (e4 : Except String String)
    (e5 : Except String (List (Option WCAccount))) (st : WalletState) :
    setupAccount ⟨false, e1, e2, e3, e4, e5⟩ st = st :=
  rfl

/-- Witness for C10 at a concrete state holding a restorable relayed
session. -/
theorem C10_setup_requires_keplr_witness :
    setupAccount ⟨false, .ok (), .ok (), .ok [], .ok "", .ok []⟩
      (initialState [(KEY_WALLET_CONNECT, .session ⟨true, "p"⟩),
        (accountKey "p", .account (some ⟨some "cosmos1old", some "secp256k1", some "0a"⟩)),
        (KEY_CONNECTED_WALLET_TYPE, .str "likerland_app")]) =
      initialState [(KEY_WALLET_CONNECT, .session ⟨true, "p"⟩),
        (accountKey "p", .account (some ⟨some "cosmos1old", some "secp256k1", some "0a"⟩)),
        (KEY_CONNECTED_WALLET_TYPE, .str "likerland_app")] :=
  C10_setup_requires_keplr (.ok ()) (.ok ()) (.ok []) (.ok "") (.ok []) _

theorem slookup_sset_self (k : String) (v : StoredVal) (s : Store) :
    slookup k (sset k v s) = some v := by
  simp [sset, slookup]

theorem fail_wcFinish_state (c : Connector) (acct : Option (Option WCAccount))
    (st : WalletState) (h : malformedAcct acct = true) :
    wcFinish c acct st = (.ok false, st) := by
  match acct with
  | none => rfl
  | some none => rfl
  | some (some a) =>
    simp only [malformedAcct, Bool.not_eq_true'] at h
    simp [wcFinish, h]

theorem fail_wcFinish (c : Connector) (acct : Option (Option WCAccount)) (st : WalletState)
    (h : (wcFinish c acct st).1 ≠ .ok true) :
    (wcFinish c acct st).2.walletAddress = st.walletAddress ∧
    (wcFinish c acct st).2.offlineSigner = st.offlineSigner := by
  match acct with
  | none => exact ⟨rfl, rfl⟩
  | some none => exact ⟨rfl, rfl⟩
  | some (some a) =>
    by_cases hv : (truthyS a.bech32Address && truthyS a.algo && truthyS a.pubKey) = true
    · exact absurd (by simp [wcFinish, hv]) h
    · simp [wcFinish, hv]

theorem err_wcFinish (c : Connector) (acct : Option (Option WCAccount)) (st : WalletState) :
    (wcFinish c acct st).2.error = st.error := by
  match acct with
  | none => rfl
  | some none => rfl
  | some (some a) =>
    by_cases hv : (truthyS a.bech32Address && truthyS a.algo && truthyS a.pubKey) = true
    · simp [wcFinish, hv, WalletState.setI]
    · simp [wcFinish, hv]

theorem fail_wcFresh (stored : Bool) (env : Env) (st : WalletState)
    (h : (wcFresh stored env st).1 ≠ .ok true) :
    (wcFresh stored env st).2.walletAddress = st.walletAddress ∧
    (wcFresh stored env st).2.offlineSigner = st.offlineSigner := by
  revert h
  unfold wcFresh
  cases env.pairing with
  | error e => exact fun _ => ⟨rfl, rfl⟩
  | ok pid =>
    cases stored with
    | false =>
      cases env.accountsResp with
      | error e => exact fun _ => ⟨rfl, rfl⟩
      | ok accs => exact fun h => fail_wcFinish _ _ _ h
    | true =>
      cases env.accountsResp with
      | error e => exact fun _ => ⟨rfl, rfl⟩
      | ok accs => exact fun h => fail_wcFinish _ _ _ h

theorem err_wcFresh (stored : Bool) (env : Env) (st : WalletState) :
    (wcFresh stored env st).2.error = st.error := by
  unfold wcFresh
  cases env.pairing with
  | error e => rfl
  | ok pid =>
    cases stored with
    | false =>
      cases env.accountsResp with
      | error e => rfl
      | ok accs => exact err_wcFinish _ _ _
    | true =>
      cases env.accountsResp with
      | error e => rfl
      | ok accs => exact err_wcFinish _ _ _

theorem fail_wcRestore (c : Connector) (st : WalletState)
    (h : (wcRestore c st).1 ≠ .ok true) :
    (wcRestore c st).2.walletAddress = st.walletAddress ∧
    (wcRestore c st).2.offlineSigner = st.offlineSigner := by
  unfold wcRestore at h ⊢
  by_cases h1 : truthyVal (slookup (accountKey c.peerId)
      ((st.emit (Event.sGet (accountKey c.peerId))).storage)) = true
  · simp only [if_pos h1] at h ⊢
    cases hv : slookup (accountKey c.peerId)
        ((st.emit (Event.sGet (accountKey c.peerId))).storage) with
    | none => exact ⟨rfl, rfl⟩
    | some v =>
      rw [hv] at h
      cases v with
      | str s => exact ⟨rfl, rfl⟩
      | account a => exact fail_wcFinish _ _ _ h
      | session s => exact ⟨rfl, rfl⟩
      | undef => exact ⟨rfl, rfl⟩
  · simp only [if_neg h1] at h ⊢
    by_cases h2 : truthyVal (slookup KEY_WALLET_CONNECT
        (((st.emit (Event.sGet (accountKey c.peerId))).emit
          (Event.sGet KEY_WALLET_CONNECT)).storage)) = true
    · simp only [if_pos h2] at h ⊢
      exact fail_wcFinish _ _ _ h
    · simp only [if_neg h2] at h ⊢
      exact fail_wcFinish _ _ _ h

theorem err_wcRestore (c : Connector) (st : WalletState) :
    (wcRestore c st).2.error = st.error := by
  unfold wcRestore
  by_cases h1 : truthyVal (slookup (accountKey c.peerId)
      ((st.emit (Event.sGet (accountKey c.peerId))).storage)) = true
  · simp only [if_pos h1]
    cases hv : slookup (accountKey c.peerId)
        ((st.emit (Event.sGet (accountKey c.peerId))).storage) with
    | none => rfl
    | some v =>
      cases v with
      | str s => rfl
      | account a => exact err_wcFinish _ _ _
      | session s => rfl
      | undef => rfl
  · simp only [if_neg h1]
    by_cases h2 : truthyVal (slookup KEY_WALLET_CONNECT
        (((st.emit (Event.sGet (accountKey c.peerId))).emit
          (Event.sGet KEY_WALLET_CONNECT)).storage)) = true
    · simp only [if_pos h2]
      exact err_wcFinish _ _ _
    · simp only [if_neg h2]
      exact err_wcFinish _ _ _

theorem fail_wcGo (stored : Bool) (c : Connector) (env : Env) (st : WalletState)
    (h : (wcGo stored c env st).1 ≠ .ok true) :
    (wcGo stored c env st).2.walletAddress = st.walletAddress ∧
    (wcGo stored c env st).2.offlineSigner = st.offlineSigner := by
  unfold wcGo at h ⊢
  by_cases hc : c.connected = true
  · simp only [if_pos hc] at h ⊢
    exact fail_wcRestore _ _ h
  · simp only [if_neg hc] at h ⊢
    exact fail_wcFresh _ _ _ h

theorem err_wcGo (stored : Bool) (c : Connector) (env : Env) (st : WalletState) :
    (wcGo stored c env st).2.error = st.error := by
  unfold wcGo
  by_cases hc : c.connected = true
  · simp only [if_pos hc]
    exact err_wcRestore _ _
  · simp only [if_neg hc]
    exact err_wcFresh _ _ _

theorem fail_initWalletConnect (env : Env) (st : WalletState)
    (h : (initWalletConnect env st).1 ≠ .ok true) :
    (initWalletConnect env st).2.walletAddress = st.walletAddress ∧
    (initWalletConnect env st).2.offlineSigner = st.offlineSigner := by
  unfold initWalletConnect at h ⊢
  by_cases hc : (mkConnector st).1.connected = true
  · simp only [if_pos hc] at h ⊢
    exact fail_wcGo _ _ _ _ h
  · simp only [if_neg hc] at h ⊢
    exact fail_wcGo _ _ _ _ h

theorem err_initWalletConnect (env : Env) (st : WalletState) :
    (initWalletConnect env st).2.error = st.error := by
  unfold initWalletConnect
  by_cases hc : (mkConnector st).1.connected = true
  · simp only [if_pos hc]
    exact err_wcGo _ _ _ _
  · simp only [if_neg hc]
    exact err_wcGo _ _ _ _

theorem fail_initKepr (env : Env) (st : WalletState)
    (h : (initKepr env st).1 ≠ .ok true) :
    (initKepr env st).2.walletAddress = st.walletAddress ∧
    (initKepr env st).2.offlineSigner = st.offlineSigner := by
  revert h
  unfold initKepr
  cases env.enable with
  | error e => exact fun _ => ⟨rfl, rfl⟩
  | ok u =>
    cases env.accounts with
    | error e => exact fun _ => ⟨rfl, rfl⟩
    | ok addrs =>
      cases addrs with
      | nil => exact fun _ => ⟨rfl, rfl⟩
      | cons address rest =>
        by_cases ha : (address == "") = true
        · simp only [if_pos ha]
          exact fun _ => ⟨rfl, rfl⟩
        · simp only [if_neg ha]
          exact fun h => absurd rfl h

theorem err_initKepr (env : Env) (st : WalletState) :
    (initKepr env st).2.error = st.error := by
  unfold initKepr
  cases env.enable with
  | error e => rfl
  | ok u =>
    cases env.accounts with
    | error e => rfl
    | ok addrs =>
      cases addrs with
      | nil => rfl
      | cons address rest =>
        by_cases ha : (address == "") = true
        · simp only [if_pos ha]
          rfl
        · simp only [if_neg ha]
          simp [WalletState.setI, WalletState.emit]

theorem fail_setupAccountTry (env : Env) (st : WalletState)
    (h : (setupAccountTry env st).1 ≠ .ok true) :
    (setupAccountTry env st).2.walletAddress = st.walletAddress ∧
    (setupAccountTry env st).2.offlineSigner = st.offlineSigner := by
  unfold setupAccountTry at h ⊢
  by_cases h1 : slookup KEY_CONNECTED_WALLET_TYPE
      ((st.emit (Event.sGet KEY_CONNECTED_WALLET_TYPE)).storage) =
      some (StoredVal.str "likerland_app")
  · simp only [if_pos h1] at h ⊢
    exact fail_initWalletConnect _ _ h
  · simp only [if_neg h1] at h ⊢
    by_cases h2 : slookup KEY_CONNECTED_WALLET_TYPE
        ((st.emit (Event.sGet KEY_CONNECTED_WALLET_TYPE)).storage) =
        some (StoredVal.str "keplr")
    · simp only [if_pos h2] at h ⊢
      exact fail_initKepr _ _ h
    · simp only [if_neg h2] at h ⊢
      exact ⟨rfl, rfl⟩

theorem err_setupAccountTry (env : Env) (st : WalletState) :
    (setupAccountTry env st).2.error = st.error := by
  unfold setupAccountTry
  by_cases h1 : slookup KEY_CONNECTED_WALLET_TYPE
      ((st.emit (Event.sGet KEY_CONNECTED_WALLET_TYPE)).storage) =
      some (StoredVal.str "likerland_app")
  · simp only [if_pos h1]
    exact err_initWalletConnect _ _
  · simp only [if_neg h1]
    by_cases h2 : slookup KEY_CONNECTED_WALLET_TYPE
        ((st.emit (Event.sGet KEY_CONNECTED_WALLET_TYPE)).storage) =
        some (StoredVal.str "keplr")
    · simp only [if_pos h2]
      exact err_initKepr _ _
    · simp only [if_neg h2]
      rfl

/-- C3 counterexample: the claim says a failed startup restoration
surfaces no error at the caller, but when the recorded wallet type is
`"keplr"` and the provider's `enable` rejects with `"boom"`, the
exception is caught and written to the consumer-facing `error` field
(source line 525, `setError(ex.message)`), even though the final state
holds no session.  This refutes the claim as stated. -/
theorem C3_counterexample :
    (setupAccount ⟨true, Except.error "boom", .ok (), .ok [], .ok "", .ok []⟩
      (initialState [(KEY_CONNECTED_WALLET_TYPE, .str "keplr")])).error = some "boom" ∧
    (setupAccount ⟨true, Except.error "boom", .ok (), .ok [], .ok "", .ok []⟩
      (initialState [(KEY_CONNECTED_WALLET_TYPE, .str "keplr")])).walletAddress = none :=
  ⟨rfl, rfl⟩

/-- C3 amended: at startup, when the injected provider global is present
(otherwise the routine returns immediately, see C10), the manager reads
the persisted wallet type and dispatches to the matching restoration
path; a failed restoration never throws to the caller and leaves no
session and no signer, but it is not fully silent: when the restoration
path throws internally, the message is surfaced in the consumer-facing
`error` field — only restorations that fail by returning `false` leave
the error field untouched. -/
theorem C3_restoration_amended (env : Env) (storage : Store)
    (hk : env.keplrAvailable = true)
    (hfail : (setupAccountTry env (initialState storage)).1 ≠ .ok true) :
    (setupAccount env (initialState storage)).walletAddress = none ∧
    (setupAccount env (initialState storage)).offlineSigner = none ∧
    (∀ e, (setupAccountTry env (initialState storage)).1 = .error e →
      (setupAccount env (initialState storage)).error = some e) ∧
    (∀ b, (setupAccountTry env (initialState storage)).1 = .ok b →
      (setupAccount env (initialState storage)).error = none) := by
  have hf := fail_setupAccountTry env (initialState storage) hfail
  have he := err_setupAccountTry env (initialState storage)
  unfold setupAccount
  rw [if_pos hk]
  cases hres : (setupAccountTry env (initialState storage)).1 with
  | error e =>
    simp only [hres]
    refine ⟨hf.1, hf.2, ?_, ?_⟩
    · intro e' he'
      cases he'
      rfl
    · intro b hb
      cases hb
  | ok b =>
    simp only [hres]
    refine ⟨hf.1, hf.2, ?_, ?_⟩
    · intro e' he'
      cases he'
    · intro b' hb
      exact he

/-- Witness for C3's amended theorem at a concrete failing environment. -/
theorem C3_restoration_amended_witness :
    ((setupAccountTry ⟨true, Except.error "boom", .ok (), .ok [], .ok "", .ok []⟩
      (initialState [(KEY_CONNECTED_WALLET_TYPE, .str "keplr")])).1 ≠ .ok true) ∧
    ((setupAccount ⟨true, Except.error "boom", .ok (), .ok [], .ok "", .ok []⟩
      (initialState [(KEY_CONNECTED_WALLET_TYPE, .str "keplr")])).walletAddress = none ∧
    (setupAccount ⟨true, Except.error "boom", .ok (), .ok [], .ok "", .ok []⟩
      (initialState [(KEY_CONNECTED_WALLET_TYPE, .str "keplr")])).offlineSigner = none ∧
    (∀ e, (setupAccountTry ⟨true, Except.error "boom", .ok (), .ok [], .ok "", .ok []⟩
      (initialState [(KEY_CONNECTED_WALLET_TYPE, .str "keplr")])).1 = .error e →
      (setupAccount ⟨true, Except.error "boom", .ok (), .ok [], .ok "", .ok []⟩
        (initialState [(KEY_CONNECTED_WALLET_TYPE, .str "keplr")])).error = some e) ∧
    (∀ b, (setupAccountTry ⟨true, Except.error "boom", .ok (), .ok [], .ok "", .ok []⟩
      (initialState [(KEY_CONNECTED_WALLET_TYPE, .str "keplr")])).1 = .ok b →
      (setupAccount ⟨true, Except.error "boom", .ok (), .ok [], .ok "", .ok []⟩
        (initialState [(KEY_CONNECTED_WALLET_TYPE, .str "keplr")])).error = none)) :=
  ⟨fun h => Except.noConfusion h,
   C3_restoration_amended _ _ rfl (fun h => Except.noConfusion h)⟩

theorem mkConnector_fst (st : WalletState) :
    (mkConnector st).1 = (match slookup KEY_WALLET_CONNECT st.storage with
      | some (.session s) => { connected := s.connected, peerId := s.peerId }
      | _ => { connected := false, peerId := "" }) := rfl

theorem mkConnector_snd (st : WalletState) :
    (mkConnector st).2 =
      (st.emit (Event.sGet KEY_WALLET_CONNECT)).emit Event.newConnector := rfl

theorem wcFinish_trace_eq (c : Connector) (acct : Option (Option WCAccount))
    (st : WalletState) :
    (wcFinish c acct st).2.trace = st.trace ++ wcFinishTrace acct := by
  match acct with
  | none => simp [wcFinish, wcFinishTrace]
  | some none => simp [wcFinish, wcFinishTrace]
  | some (some a) =>
    by_cases hv : (truthyS a.bech32Address && truthyS a.algo && truthyS a.pubKey) = true
    · simp [wcFinish, wcFinishTrace, hv, WalletState.setI]
    · simp [wcFinish, wcFinishTrace, hv]

theorem trace_wcFresh (stored : Bool) (env : Env) (st : WalletState) :
    ∃ t, (wcFresh stored env st).2.trace = st.trace ++ Event.pairingRequest :: t := by
  unfold wcFresh
  cases env.pairing with
  | error e => exact ⟨[], by simp [WalletState.emit]⟩
  | ok pid =>
    cases stored with
    | false =>
      cases env.accountsResp with
      | error e =>
        refine ⟨[Event.sSet KEY_WALLET_CONNECT,
          Event.wcRequest "cosmos_getAccounts" st.nextId], ?_⟩
        simp [WalletState.emit, WalletState.setI]
      | ok accs =>
        refine ⟨[Event.sSet KEY_WALLET_CONNECT,
          Event.wcRequest "cosmos_getAccounts" st.nextId,
          Event.sSet (accountKey pid)] ++ wcFinishTrace accs.head?, ?_⟩
        rw [wcFinish_trace_eq]
        simp [WalletState.emit, WalletState.setI]
    | true =>
      cases env.accountsResp with
      | error e =>
        refine ⟨[Event.sSet KEY_WALLET_CONNECT,
          Event.wcRequest "cosmos_getAccounts" st.nextId], ?_⟩
        simp [WalletState.emit, WalletState.setI]
      | ok accs =>
        refine ⟨[Event.sSet KEY_WALLET_CONNECT,
          Event.wcRequest "cosmos_getAccounts" st.nextId,
          Event.sSet (accountKey pid)] ++ wcFinishTrace accs.head?, ?_⟩
        rw [wcFinish_trace_eq]
        simp [WalletState.emit, WalletState.setI]

theorem initWalletConnect_live (env : Env) (st : WalletState) (p : String)
    (hblob : slookup KEY_WALLET_CONNECT st.storage =
      some (.session { connected := true, peerId := p })) :
    initWalletConnect env st = wcFresh false env
      { walletAddress := st.walletAddress, offlineSigner := st.offlineSigner,
        connector := some { connected := false, peerId := p },
        isLoading := st.isLoading, error := st.error,
        storage := sremove KEY_WALLET_CONNECT st.storage, nextId := st.nextId,
        trace := (((((st.trace ++ [Event.sGet KEY_WALLET_CONNECT]) ++ [Event.newConnector])
          ++ [Event.sRemove KEY_WALLET_CONNECT]) ++ [Event.killSession p])
          ++ [Event.sGet KEY_WALLET_CONNECT]) ++ [Event.newConnector] } := by
  unfold initWalletConnect wcGo
  simp only [mkConnector_fst, mkConnector_snd, hblob, killConnector,
    WalletState.removeI, WalletState.emit, slookup_sremove, if_pos]
  rfl

theorem initWalletConnect_always_fresh (env : Env) (st : WalletState) :
    ∃ (b : Bool) (stX : WalletState),
      initWalletConnect env st = wcFresh b env stX ∧
      stX.walletAddress = st.walletAddress ∧
      stX.offlineSigner = st.offlineSigner ∧
      stX.error = st.error := by
  cases hl : slookup KEY_WALLET_CONNECT st.storage with
  | none =>
    unfold initWalletConnect wcGo
    simp only [mkConnector_fst, mkConnector_snd, hl, WalletState.emit]
    exact ⟨true, _, rfl, rfl, rfl, rfl⟩
  | some v =>
    cases v with
    | str s =>
      unfold initWalletConnect wcGo
      simp only [mkConnector_fst, mkConnector_snd, hl, WalletState.emit]
      exact ⟨true, _, rfl, rfl, rfl, rfl⟩
    | account a =>
      unfold initWalletConnect wcGo
      simp only [mkConnector_fst, mkConnector_snd, hl, WalletState.emit]
      exact ⟨true, _, rfl, rfl, rfl, rfl⟩
    | undef =>
      unfold initWalletConnect wcGo
      simp only [mkConnector_fst, mkConnector_snd, hl, WalletState.emit]
      exact ⟨true, _, rfl, rfl, rfl, rfl⟩
    | session s =>
      obtain ⟨sc, sp⟩ := s
      cases sc with
      | false =>
        unfold initWalletConnect wcGo
        simp only [mkConnector_fst, mkConnector_snd, hl, WalletState.emit]
        exact ⟨true, _, rfl, rfl, rfl, rfl⟩
      | true =>
        rw [initWalletConnect_live env st sp hl]
        exact ⟨false, _, rfl, rfl, rfl, rfl⟩

theorem wcFresh_malformed (stored : Bool) (env : Env) (st : WalletState)
    (pid : String) (accs : List (Option WCAccount))
    (hp : env.pairing = .ok pid) (ha : env.accountsResp = .ok accs)
    (hm : malformedAcct accs.head? = true) :
    (wcFresh stored env st).1 = .ok false ∧
    (wcFresh stored env st).2.walletAddress = st.walletAddress ∧
    (wcFresh stored env st).2.offlineSigner = st.offlineSigner ∧
    (wcFresh stored env st).2.error = st.error ∧
    slookup (accountKey pid) (wcFresh stored env st).2.storage =
      some (storedOfAccount accs.head?) := by
  unfold wcFresh
  simp only [hp, ha]
  cases stored with
  | false =>
    rw [fail_wcFinish_state _ _ _ hm]
    refine ⟨rfl, rfl, rfl, rfl, ?_⟩
    simp only [WalletState.setI]
    exact slookup_sset_self _ _ _
  | true =>
    rw [fail_wcFinish_state _ _ _ hm]
    refine ⟨rfl, rfl, rfl, rfl, ?_⟩
    simp only [WalletState.setI]
    exact slookup_sset_self _ _ _

/-- C5 counterexample: the claim says a handshake account response
missing a required field leaves nothing cached and surfaces
`HandshakeFailed`, but when the wallet answers `cosmos_getAccounts` with
an account lacking `algo`, the source caches the malformed response under
the peer-id key before validating it (source lines 449-452) and then
returns `false` without setting any error (source line 473): the connect
call resolves silently with `error` still `null`. -/
theorem C5_counterexample :
    (connectWalletConnect ⟨true, .ok (), .ok (), .ok [], .ok "p1",
        .ok [some ⟨some "cosmos1abc", none, some "0a"⟩]⟩
      (initialState [])).walletAddress = none ∧
    (connectWalletConnect ⟨true, .ok (), .ok (), .ok [], .ok "p1",
        .ok [some ⟨some "cosmos1abc", none, some "0a"⟩]⟩
      (initialState [])).error = none ∧
    slookup (accountKey "p1") (connectWalletConnect ⟨true, .ok (), .ok (), .ok [], .ok "p1",
        .ok [some ⟨some "cosmos1abc", none, some "0a"⟩]⟩
      (initialState [])).storage =
      some (.account (some ⟨some "cosmos1abc", none, some "0a"⟩)) :=
  ⟨rfl, rfl, rfl⟩

/-- C5 amended: a relayed connect whose handshake account response is
malformed (`null`, or missing/empty `bech32Address`/`algo`/`pubKey`)
ends not Connected — no session is created, no signer and no wallet
address are set — but contrary to the claim no `HandshakeFailed` error is
surfaced (the call resolves silently, `error` unchanged) and the
malformed response has already been cached under `account-cache:<peerId>`
before validation. -/
theorem C5_handshake_amended (env : Env) (storage : Store)
    (pid : String) (accs : List (Option WCAccount))
    (hp : env.pairing = .ok pid) (ha : env.accountsResp = .ok accs)
    (hm : malformedAcct accs.head? = true) :
    (connectWalletConnect env (initialState storage)).walletAddress = none ∧
    (connectWalletConnect env (initialState storage)).offlineSigner = none ∧
    (connectWalletConnect env (initialState storage)).error = none ∧
    slookup (accountKey pid) (connectWalletConnect env (initialState storage)).storage =
      some (storedOfAccount accs.head?) := by
  obtain ⟨b, stX, heq, hwa, hos, herr⟩ :=
    initWalletConnect_always_fresh env { initialState storage with isLoading := true }
  obtain ⟨h1, h2, h3, h4, h5⟩ := wcFresh_malformed b env stX pid accs hp ha hm
  unfold connectWalletConnect
  simp only [heq, h1]
  refine ⟨?_, ?_, ?_, ?_⟩
  · rw [h2, hwa]
    rfl
  · rw [h3, hos]
    rfl
  · rw [h4, herr]
    rfl
  · exact h5

/-- Witness for C5's amended theorem at a concrete malformed response. -/
theorem C5_handshake_amended_witness :
    ((Env.pairing ⟨true, .ok (), .ok (), .ok [], .ok "p1",
        .ok [some ⟨some "cosmos1abc", none, some "0a"⟩]⟩ = .ok "p1") ∧
     (Env.accountsResp ⟨true, .ok (), .ok (), .ok [], .ok "p1",
        .ok [some ⟨some "cosmos1abc", none, some "0a"⟩]⟩ =
        .ok [some ⟨some "cosmos1abc", none, some "0a"⟩]) ∧
     (malformedAcct ([some (⟨some "cosmos1abc", none, some "0a"⟩ : WCAccount)]).head? = true)) ∧
    ((connectWalletConnect ⟨true, .ok (), .ok (), .ok [], .ok "p1",
        .ok [some ⟨some "cosmos1abc", none, some "0a"⟩]⟩
      (initialState [])).walletAddress = none ∧
    (connectWalletConnect ⟨true, .ok (), .ok (), .ok [], .ok "p1",
        .ok [some ⟨some "cosmos1abc", none, some "0a"⟩]⟩
      (initialState [])).offlineSigner = none ∧
    (connectWalletConnect ⟨true, .ok (), .ok (), .ok [], .ok "p1",
        .ok [some ⟨some "cosmos1abc", none, some "0a"⟩]⟩
      (initialState [])).error = none ∧
    slookup (accountKey "p1") (connectWalletConnect ⟨true, .ok (), .ok (), .ok [], .ok "p1",
        .ok [some ⟨some "cosmos1abc", none, some "0a"⟩]⟩
      (initialState [])).storage =
      some (storedOfAccount ([some (⟨some "cosmos1abc", none, some "0a"⟩ : WCAccount)]).head?)) :=
  ⟨⟨rfl, rfl, rfl⟩, C5_handshake_amended _ [] "p1" _ rfl rfl rfl⟩

/-- C7: on a relayed connect, when the pre-existing transport session
(the persisted `"walletconnect"` blob the constructor restores) reports
itself connected, that session is killed — and only then is a new
connector constructed for the fresh pairing: the effect trace begins with
constructing the first connector, removing the blob and killing the
session, then constructing a second connector, and only then the pairing
request.  Together with `initWalletConnect_always_fresh` (the
restore/reuse branch is unreachable), a connect never reuses a transport
that already reported itself connected before the call. -/
theorem C7_kill_before_fresh_pairing (env : Env) (st : WalletState) (p : String)
    (hblob : slookup KEY_WALLET_CONNECT st.storage =
      some (.session { connected := true, peerId := p })) :
    ∃ rest, (initWalletConnect env st).2.trace =
      st.trace ++ [Event.sGet KEY_WALLET_CONNECT, Event.newConnector,
        Event.sRemove KEY_WALLET_CONNECT, Event.killSession p,
        Event.sGet KEY_WALLET_CONNECT, Event.newConnector,
        Event.pairingRequest] ++ rest := by
  rw [initWalletConnect_live env st p hblob]
  obtain ⟨t, ht⟩ := trace_wcFresh false env
    { walletAddress := st.walletAddress, offlineSigner := st.offlineSigner,
      connector := some { connected := false, peerId := p },
      isLoading := st.isLoading, error := st.error,
      storage := sremove KEY_WALLET_CONNECT st.storage, nextId := st.nextId,
      trace := (((((st.trace ++ [Event.sGet KEY_WALLET_CONNECT]) ++ [Event.newConnector])
        ++ [Event.sRemove KEY_WALLET_CONNECT]) ++ [Event.killSession p])
        ++ [Event.sGet KEY_WALLET_CONNECT]) ++ [Event.newConnector] }
  rw [ht]
  refine ⟨t, ?_⟩
  simp

/-- Witness for C7 at a concrete live persisted session. -/
theorem C7_kill_before_fresh_pairing_witness :
    (slookup KEY_WALLET_CONNECT
      (initialState [(KEY_WALLET_CONNECT, .session ⟨true, "p"⟩)]).storage =
      some (.session { connected := true, peerId := "p" })) ∧
    (∃ rest, (initWalletConnect ⟨true, .ok (), .ok (), .ok [], .ok "q",
        .ok [some ⟨some "cosmos1new", some "secp256k1", some "0a"⟩]⟩
      (initialState [(KEY_WALLET_CONNECT, .session ⟨true, "p"⟩)])).2.trace =
      (initialState [(KEY_WALLET_CONNECT, .session ⟨true, "p"⟩)]).trace ++
        [Event.sGet KEY_WALLET_CONNECT, Event.newConnector,
        Event.sRemove KEY_WALLET_CONNECT, Event.killSession "p",
        Event.sGet KEY_WALLET_CONNECT, Event.newConnector,
        Event.pairingRequest] ++ rest) :=
  ⟨rfl, C7_kill_before_fresh_pairing _ _ "p" rfl⟩

/-- C6 (code-bug evidence): with a live persisted transport session for
peer `"p"` and no cached account tuple for it, the startup restoration
attempt does not simply discard the orphaned session and stop — the
kill-and-recreate at the top of `initWalletConnect` (source lines
416-427) removes the blob before the `connected` test, so the orphan
branch (source lines 463-466) never runs; instead the very same attempt
launches a fresh out-of-band pairing, and when the peer approves it the
attempt ends Connected with a brand-new session, contradicting the claim
that the attempt ends without an active session. -/
theorem C6_orphan_session_behavior :
    (setupAccount ⟨true, .ok (), .ok (), .ok [], .ok "q",
        .ok [some ⟨some "cosmos1new", some "secp256k1", some "0a"⟩]⟩
      (initialState [(KEY_WALLET_CONNECT, .session ⟨true, "p"⟩),
        (KEY_CONNECTED_WALLET_TYPE, .str "likerland_app")])).walletAddress =
      some "cosmos1new" ∧
    Event.pairingRequest ∈ (setupAccount ⟨true, .ok (), .ok (), .ok [], .ok "q",
        .ok [some ⟨some "cosmos1new", some "secp256k1", some "0a"⟩]⟩
      (initialState [(KEY_WALLET_CONNECT, .session ⟨true, "p"⟩),
        (KEY_CONNECTED_WALLET_TYPE, .str "likerland_app")])).trace ∧
    slookup KEY_WALLET_CONNECT (setupAccount ⟨true, .ok (), .ok (), .ok [], .ok "q",
        .ok [some ⟨some "cosmos1new", some "secp256k1", some "0a"⟩]⟩
      (initialState [(KEY_WALLET_CONNECT, .session ⟨true, "p"⟩),
        (KEY_CONNECTED_WALLET_TYPE, .str "likerland_app")])).storage =
      some (.session ⟨true, "q"⟩) :=
  ⟨rfl, by decide, rfl⟩

/-- C8 (code-bug evidence): with a valid persisted relayed session
record — a live transport session for peer `"p"` and its cached, valid
account tuple — the startup restoration does not restore `Connected`
without re-pairing: the kill-and-recreate at the top of
`initWalletConnect` destroys the live session (the restore branch is
unreachable, see `initWalletConnect_always_fresh`), and the run issues a
new pairing request, ending — if the peer approves — connected to the
freshly paired account rather than the restored one. -/
theorem C8_restore_issues_pairing :
    Event.pairingRequest ∈ (setupAccount ⟨true, .ok (), .ok (), .ok [], .ok "p2",
        .ok [some ⟨some "cosmos1new", some "secp256k1", some "0a"⟩]⟩
      (initialState [(KEY_WALLET_CONNECT, .session ⟨true, "p"⟩),
        (accountKey "p", .account (some ⟨some "cosmos1old", some "secp256k1", some "0a"⟩)),
        (KEY_CONNECTED_WALLET_TYPE, .str "likerland_app")])).trace ∧
    (setupAccount ⟨true, .ok (), .ok (), .ok [], .ok "p2",
        .ok [some ⟨some "cosmos1new", some "secp256k1", some "0a"⟩]⟩
      (initialState [(KEY_WALLET_CONNECT, .session ⟨true, "p"⟩),
        (accountKey "p", .account (some ⟨some "cosmos1old", some "secp256k1", some "0a"⟩)),
        (KEY_CONNECTED_WALLET_TYPE, .str "likerland_app")])).walletAddress =
      some "cosmos1new" :=
  ⟨by decide, rfl⟩
